import Mathlib

/-!
Shallow embedding of the blood-group-collector services.

Embedded code:
- src/login-service/server.js : the POST /register and POST /login handlers,
  the bcrypt hash/compare calls, the jwt.sign call and the startup sequence.
- src/backend/server.js : the DELETE /data/:id handler.

The users table is a list of rows in insertion order; INSERT appends, and
SELECT * FROM users WHERE email = $1 returns the matching rows in table
order (result.rows). Storage failures (a query that raises) are modelled by
a boolean oracle dbOk passed to each handler: the source wraps each query
in try/catch. The bcrypt salt drawn internally by bcrypt.hash is modelled
as an explicit Nat parameter supplied by the environment.
-/

set_option autoImplicit false

namespace BloodGroup

/-- A bcrypt digest. The source stores bcrypt.hash(password, 10); a bcrypt
digest determines the cost, the salt, and (together with the salt) the
keyed hash of the plaintext, so it is modelled as the triple of plaintext,
salt and cost, with bcrypt.compare recomputing the hash from the candidate
plaintext and the digest salt and comparing. -/
structure Digest where
  plain : String
  salt : Nat
  cost : Nat
deriving DecidableEq, Repr

/-- bcrypt.hash(plaintext, cost): the salt is drawn from fresh internal
entropy at each call, modelled as the explicit argument. -/
def bcryptHash (plaintext : String) (cost : Nat) (salt : Nat) : Digest :=
  { plain := plaintext, salt := salt, cost := cost }

/-- bcrypt.compare(plaintext, digest): rehash the candidate under the
stored salt and compare; succeeds exactly when the plaintexts agree. -/
def bcryptCompare (plaintext : String) (d : Digest) : Bool :=
  plaintext == d.plain

/-- One row of the users table: INSERT INTO users (name, email, password);
the password column holds the bcrypt digest. -/
structure UserRow where
  name : String
  email : String
  password : Digest
deriving DecidableEq, Repr

/-- The users table, in insertion order. No uniqueness constraint exists
on any column in the source schema. -/
abbrev UsersTable := List UserRow

/-- SELECT * FROM users WHERE email = $1 : the rows matching the email,
in table order. -/
def selectByEmail (db : UsersTable) (email : String) : List UserRow :=
  db.filter (fun r => r.email == email)

/-- A JSON response body as the handlers build them: res.json({message}),
res.json({error}) or res.json({token}). -/
inductive JsonBody where
  | message (s : String)
  | error (s : String)
  | token (s : String)
deriving DecidableEq, Repr

/-- An HTTP response: res.status(n).json(body). -/
structure Response where
  status : Nat
  body : JsonBody
deriving DecidableEq, Repr

/-- A signed JWT as produced by jwt.sign({email}, secret, {expiresIn: 1h}):
the claims set is the email (the only caller-supplied payload field) plus
the registered claims iat and exp = iat + 3600; the signature binds the
token to the signing secret. -/
structure Token where
  email : String
  iat : Nat
  exp : Nat
  signedWith : String
deriving DecidableEq, Repr

/-- jwt.sign({email}, secret, {expiresIn: 1h}) at clock time iat
(seconds). -/
def jwtSign (email : String) (secret : String) (iat : Nat) : Token :=
  { email := email, iat := iat, exp := iat + 3600, signedWith := secret }

/-- Outcome of jwt.verify(token, secret) at clock time now. -/
inductive VerifyResult where
  | ok (email : String)
  | expired
  | badSignature
deriving DecidableEq, Repr

/-- jwt.verify(token, secret) at clock time now: the signature is checked
against the secret, then expiry; jsonwebtoken rejects with TokenExpiredError
when the clock has reached exp. -/
def jwtVerify (t : Token) (secret : String) (now : Nat) : VerifyResult :=
  if t.signedWith != secret then VerifyResult.badSignature
  else if t.exp ≤ now then VerifyResult.expired
  else VerifyResult.ok t.email

/-- The compact serialization of a signed JWT: a base64url header (constant
for HS256), payload and signature joined by dots; always a non-empty
string. -/
def serializeToken (t : Token) : String :=
  "eyJhbGciOiJIUzI1NiIsInR5cCI6IkpXVCJ9" ++ "." ++ t.email ++ "." ++
    toString t.iat ++ "." ++ t.signedWith

/-- POST /register (src/login-service/server.js lines 19-28).
password is none when the field is absent from the body or not a string:
then bcrypt.hash(password, 10) on line 21 rejects, and since line 21 sits
before the try block the rejection escapes the handler, no row is inserted
and no response is sent (result none). Otherwise the digest is computed
with a fresh salt and the INSERT runs inside try/catch: on success the
handler sends 201 {message}, on a query error 500 {error}. Returns the new
table and the response sent, if any. -/
def register (db : UsersTable) (name email : String) (password : Option String)
    (salt : Nat) (dbOk : Bool) : UsersTable × Option Response :=
  match password with
  | none => (db, none)
  | some p =>
    let hashedPass := bcryptHash p 10 salt
    if dbOk then
      (db ++ [{ name := name, email := email, password := hashedPass }],
        some { status := 201, body := JsonBody.message "User registered" })
    else
      (db, some { status := 500, body := JsonBody.error "Error registering user" })

/-- POST /login (src/login-service/server.js lines 31-45).
The whole body runs inside try/catch: a query error yields
500 {error: Error logging in}. Otherwise the lookup returns result.rows;
if empty, 401 {error: Invalid credentials}; else the supplied password is
compared against result.rows[0].password only; a mismatch yields the same
401 body. On a match, jwt.sign({email}, process.env.JWT_SECRET,
{expiresIn: 1h}) runs: with the secret absent (secret = none) jwt.sign
throws, the catch maps it to 500 {error: Error logging in}; with the
secret present the handler sends 200 {token}. -/
def login (db : UsersTable) (email password : String) (secret : Option String)
    (now : Nat) (dbOk : Bool) : Response :=
  if !dbOk then { status := 500, body := JsonBody.error "Error logging in" }
  else
    match selectByEmail db email with
    | [] => { status := 401, body := JsonBody.error "Invalid credentials" }
    | r :: _ =>
      if !(bcryptCompare password r.password) then
        { status := 401, body := JsonBody.error "Invalid credentials" }
      else
        match secret with
        | none => { status := 500, body := JsonBody.error "Error logging in" }
        | some s =>
          { status := 200,
            body := JsonBody.token (serializeToken (jwtSign email s now)) }

/-- The environment variables the login service reads at startup. -/
structure Env where
  jwtSecret : Option String
  port : Option Nat
deriving DecidableEq, Repr

/-- The login service process after its top-level code ran. -/
structure ServerState where
  listening : Bool
  port : Nat
  secret : Option String
deriving DecidableEq, Repr

/-- Startup of the login service (src/login-service/server.js lines 47-48):
const PORT = process.env.PORT || 4000; app.listen(PORT, ...). The top-level
code never inspects process.env.JWT_SECRET, so the server reaches
app.listen and serves requests whether or not the secret is set. -/
def startup (env : Env) : ServerState :=
  { listening := true, port := env.port.getD 4000, secret := env.jwtSecret }

/-- One row of the blood_data table of the donor records service. -/
structure BloodRow where
  id : Nat
  name : String
  blood_group : String
deriving DecidableEq, Repr

/-- The blood_data table, in insertion order. -/
abbrev BloodTable := List BloodRow

/-- DELETE /data/:id (src/backend/server.js lines 119-149).
DELETE FROM blood_data WHERE id = $1 removes every matching row and
reports result.rowCount; if the query raises, nothing is deleted and the
handler sends 500 {error: Error deleting data}; if rowCount is 0 it sends
404 {message: Data not found}; otherwise 200
{message: Data deleted successfully}. Returns the new table and the
response. -/
def deleteData (db : BloodTable) (id : Nat) (dbOk : Bool) :
    BloodTable × Response :=
  if !dbOk then
    (db, { status := 500, body := JsonBody.error "Error deleting data" })
  else
    let remaining := db.filter (fun r => !(r.id == id))
    let rowCount := db.length - remaining.length
    if rowCount == 0 then
      (db, { status := 404, body := JsonBody.message "Data not found" })
    else
      (remaining,
        { status := 200, body := JsonBody.message "Data deleted successfully" })

/-- The condition under which the login handler takes one of its two 401
branches: the lookup returned no row, or the supplied password fails
bcrypt.compare against the first returned row. -/
def authFails (db : UsersTable) (email password : String) : Bool :=
  match selectByEmail db email with
  | [] => true
  | r :: _ => !(bcryptCompare password r.password)

/-- A one-user store: Alice registered with password secret123. -/
def demoDb : UsersTable :=
  [{ name := "Alice", email := "a@x.com", password := bcryptHash "secret123" 10 0 }]

/-- A store holding two rows with the same email and different password
digests, as two Register calls for the same email produce. -/
def demoDb2 : UsersTable :=
  [{ name := "Alice", email := "a@x.com", password := bcryptHash "pw1" 10 0 },
   { name := "Alicia", email := "a@x.com", password := bcryptHash "pw2" 10 1 }]

/-- A two-row blood_data table. -/
def demoBlood : BloodTable :=
  [{ id := 1, name := "Bob", blood_group := "A+" },
   { id := 2, name := "Carol", blood_group := "O-" }]

/-- The SELECT lookup distributes over appending rows to the table. -/
theorem selectByEmail_append (db1 db2 : UsersTable) (e : String) :
    selectByEmail (db1 ++ db2) e = selectByEmail db1 e ++ selectByEmail db2 e :=
  List.filter_append db1 db2

/-- The compact JWT serialization is never the empty string: it begins
with the fixed base64url header. -/
theorem serializeToken_ne_empty (t : Token) : serializeToken t ≠ "" := by
  intro h
  have hl := congrArg String.length h
  simp only [serializeToken] at hl
  rw [String.length_append, String.length_append, String.length_append,
    String.length_append, String.length_append, String.length_append] at hl
  have hhd : ("eyJhbGciOiJIUzI1NiIsInR5cCI6IkpXVCJ9" : String).length = 36 := by decide
  have h0 : ("" : String).length = 0 := by decide
  omega

/-- Claim C7: for every plaintext p, two hash calls (drawing distinct
salts from fresh entropy) produce two different digests, yet verify
succeeds for p against each of the two digests: the hasher is salted and
verification round-trips. -/
theorem hash_salted_and_roundtrips (p : String) (c s1 s2 : Nat) (h : s1 ≠ s2) :
    bcryptHash p c s1 ≠ bcryptHash p c s2 ∧
    bcryptCompare p (bcryptHash p c s1) = true ∧
    bcryptCompare p (bcryptHash p c s2) = true := by
  refine ⟨fun hd => h (congrArg Digest.salt hd), ?_, ?_⟩ <;>
    simp [bcryptCompare, bcryptHash]

/-- Witness for C7 at plaintext secret123 and salts 0 and 1. -/
theorem hash_salted_and_roundtrips_witness :
    (0 : Nat) ≠ 1 ∧
    (bcryptHash "secret123" 10 0 ≠ bcryptHash "secret123" 10 1 ∧
     bcryptCompare "secret123" (bcryptHash "secret123" 10 0) = true ∧
     bcryptCompare "secret123" (bcryptHash "secret123" 10 1) = true) :=
  ⟨by decide, hash_salted_and_roundtrips "secret123" 10 0 1 (by decide)⟩

/-- Claim C9: a Register request whose password field is absent or not a
string makes bcrypt.hash reject before the try block is entered: the users
table is unchanged and no response at all is sent, neither the 201
acknowledgement nor the 500 error body. -/
theorem register_missing_password_escapes (db : UsersTable) (n e : String)
    (salt : Nat) (dbOk : Bool) :
    register db n e none salt dbOk = (db, none) := rfl

/-- Counterexample to C4 as stated: from the empty store, two Register
calls with the same email a@x.com and different passwords both succeed
with 201, and the resulting store holds two rows for that email, so the
at-most-one-row-per-email invariant fails in a reachable state. -/
theorem register_duplicate_email_cex :
    ((register [] "Alice" "a@x.com" (some "pw1") 0 true).2
        = some { status := 201, body := JsonBody.message "User registered" }) ∧
    ((register (register [] "Alice" "a@x.com" (some "pw1") 0 true).1
        "Alicia" "a@x.com" (some "pw2") 1 true).2
        = some { status := 201, body := JsonBody.message "User registered" }) ∧
    (selectByEmail
        (register (register [] "Alice" "a@x.com" (some "pw1") 0 true).1
          "Alicia" "a@x.com" (some "pw2") 1 true).1 "a@x.com").length = 2 := by
  refine ⟨rfl, rfl, by decide⟩

/-- Claim C4 amended: the schema carries no uniqueness constraint, so two
Register calls with the same email and different passwords both succeed
(both answer 201) and leave at least two rows with that email in the
store; the at-most-one-row-per-email invariant does not hold in every
reachable state. -/
theorem register_duplicate_email_both_succeed (db : UsersTable)
    (n1 n2 e p1 p2 : String) (s1 s2 : Nat) :
    (register db n1 e (some p1) s1 true).2
      = some { status := 201, body := JsonBody.message "User registered" } ∧
    (register (register db n1 e (some p1) s1 true).1 n2 e (some p2) s2 true).2
      = some { status := 201, body := JsonBody.message "User registered" } ∧
    2 ≤ (selectByEmail
        (register (register db n1 e (some p1) s1 true).1 n2 e (some p2) s2 true).1
        e).length := by
  refine ⟨rfl, rfl, ?_⟩
  simp only [register, selectByEmail_append]
  simp [selectByEmail]

/-- Claim C3 evaluated on the code (code bug): with JWT_SECRET absent the
top-level code still reaches app.listen, so the service starts serving
requests instead of failing at startup; the missing secret only surfaces
when a login with correct credentials reaches jwt.sign, which throws and
is mapped to a 500 response. -/
theorem startup_without_secret_still_serves :
    (startup { jwtSecret := none, port := none }).listening = true ∧
    login demoDb "a@x.com" "secret123" none 0 true
      = { status := 500, body := JsonBody.error "Error logging in" } :=
  ⟨rfl, by decide⟩

/-- Claim C8: DELETE /data/:id answers 500 with the table unchanged when
the query raises; 404 with the table unchanged when no row has the given
id; and 200 with exactly the rows of that id removed when at least one row
has it. -/
theorem deleteData_spec (db : BloodTable) (i : Nat) :
    deleteData db i false
      = (db, { status := 500, body := JsonBody.error "Error deleting data" }) ∧
    ((∀ r ∈ db, r.id ≠ i) →
      deleteData db i true
        = (db, { status := 404, body := JsonBody.message "Data not found" })) ∧
    ((∃ r ∈ db, r.id = i) →
      (deleteData db i true).2
          = { status := 200, body := JsonBody.message "Data deleted successfully" } ∧
      (deleteData db i true).1 = db.filter (fun r => !(r.id == i))) := by
  refine ⟨rfl, ?_, ?_⟩
  · intro h
    have hf : db.filter (fun r => !(r.id == i)) = db := by
      rw [List.filter_eq_self]
      intro r hr
      simpa using h r hr
    simp [deleteData, hf]
  · rintro ⟨r, hr, hid⟩
    have hlt : (db.filter (fun r => !(r.id == i))).length < db.length := by
      rw [List.length_filter_lt_length_iff_exists]
      exact ⟨r, hr, by simp [hid]⟩
    have hne : (db.length - (db.filter (fun r => !(r.id == i))).length == 0) = false := by
      simp only [beq_eq_false_iff_ne, ne_eq]
      omega
    constructor <;> simp [deleteData, hne]

/-- Witness for C8: on the two-row demo table, deleting id 3 answers 404
and deleting id 1 answers 200. -/
theorem deleteData_spec_witness :
    deleteData demoBlood 3 true
      = (demoBlood, { status := 404, body := JsonBody.message "Data not found" }) ∧
    (deleteData demoBlood 1 true).2
      = { status := 200, body := JsonBody.message "Data deleted successfully" } :=
  ⟨(deleteData_spec demoBlood 3).2.1 (by decide),
   ((deleteData_spec demoBlood 1).2.2 (by decide)).1⟩

/-- Claim C1: for every valid request (name, email and password present
and non-empty) against a store with no row for that email yet, Register
answers 201 and a following Login with the same email and password answers
200 with a non-empty token in the body. -/
theorem register_then_login_succeeds (db : UsersTable) (n e p s : String)
    (salt now : Nat) (hn : n ≠ "") (he : e ≠ "") (hp : p ≠ "")
    (hfresh : selectByEmail db e = []) :
    (register db n e (some p) salt true).2
      = some { status := 201, body := JsonBody.message "User registered" } ∧
    (login (register db n e (some p) salt true).1 e p (some s) now true).status
      = 200 ∧
    ∃ tok : String,
      (login (register db n e (some p) salt true).1 e p (some s) now true).body
        = JsonBody.token tok ∧ tok ≠ "" := by
  have hsel : selectByEmail (register db n e (some p) salt true).1 e
      = [{ name := n, email := e, password := bcryptHash p 10 salt }] := by
    show selectByEmail
      (db ++ [{ name := n, email := e, password := bcryptHash p 10 salt }]) e = _
    rw [selectByEmail_append, hfresh]
    simp [selectByEmail]
  refine ⟨rfl, ?_, serializeToken (jwtSign e s now), ?_, serializeToken_ne_empty _⟩
  · simp [login, hsel, bcryptCompare, bcryptHash]
  · simp [login, hsel, bcryptCompare, bcryptHash]

/-- Witness for C1: Alice registers on the empty store and logs in. -/
theorem register_then_login_succeeds_witness :
    (login (register [] "Alice" "a@x.com" (some "secret123") 0 true).1
        "a@x.com" "secret123" (some "s3cret") 7 true).status = 200 :=
  (register_then_login_succeeds [] "Alice" "a@x.com" "secret123" "s3cret" 0 7
    (by decide) (by decide) (by decide) (by decide)).2.1

/-- Claim C2: Login on a registered email with a wrong password and Login
on an unknown non-empty email return the very same response, the 401
Invalid credentials error, so the two failure causes are indistinguishable
to the caller. -/
theorem login_non_enumeration (db : UsersTable) (e p e2 p2 : String)
    (secret : Option String) (now now2 : Nat) (r0 : UserRow) (rest : List UserRow)
    (hlookup : selectByEmail db e = r0 :: rest)
    (hbad : bcryptCompare p r0.password = false)
    (hunknown : selectByEmail db e2 = [])
    (hne : e2 ≠ "") :
    login db e p secret now true = login db e2 p2 secret now2 true ∧
    login db e p secret now true
      = { status := 401, body := JsonBody.error "Invalid credentials" } := by
  have h1 : login db e p secret now true
      = { status := 401, body := JsonBody.error "Invalid credentials" } := by
    simp [login, hlookup, hbad]
  have h2 : login db e2 p2 secret now2 true
      = { status := 401, body := JsonBody.error "Invalid credentials" } := by
    simp [login, hunknown]
  exact ⟨h1.trans h2.symm, h1⟩

/-- Witness for C2: wrong password for Alice against an unknown email. -/
theorem login_non_enumeration_witness :
    login demoDb "a@x.com" "wrong" (some "s3cret") 7 true
      = login demoDb "b@x.com" "wrong" (some "s3cret") 7 true ∧
    login demoDb "a@x.com" "wrong" (some "s3cret") 7 true
      = { status := 401, body := JsonBody.error "Invalid credentials" } :=
  login_non_enumeration demoDb "a@x.com" "wrong" "b@x.com" "wrong"
    (some "s3cret") 7 7
    { name := "Alice", email := "a@x.com", password := bcryptHash "secret123" 10 0 }
    [] (by decide) (by decide) (by decide) (by decide)

/-- Counterexample to C5 as stated: a 500 response can occur although the
storage query did not raise. With JWT_SECRET absent and correct
credentials supplied, jwt.sign throws inside the try block and the catch
answers 500, refuting that 500 occurs exactly on storage failure. -/
theorem login_500_without_storage_error_cex :
    ¬ (∀ (db : UsersTable) (e p : String) (secret : Option String) (now : Nat),
        (login db e p secret now true).status ≠ 500) := by
  intro h
  exact h demoDb "a@x.com" "secret123" none 0 (by decide)

/-- Claim C5 amended: provided the signing secret is configured, Login
answers 500 exactly when the storage query raises, answers 401 exactly
when the email is unknown or the password fails verification against the
stored digest, and both failure bodies are fixed opaque messages carrying
no internal detail. -/
theorem login_failure_taxonomy (db : UsersTable) (e p s : String) (now : Nat) :
    (login db e p (some s) now false
      = { status := 500, body := JsonBody.error "Error logging in" }) ∧
    ((login db e p (some s) now true).status = 401 ↔ authFails db e p = true) ∧
    ((login db e p (some s) now true).status ≠ 500) ∧
    ((login db e p (some s) now true).status = 401 →
      (login db e p (some s) now true).body
        = JsonBody.error "Invalid credentials") := by
  refine ⟨rfl, ?_, ?_, ?_⟩ <;>
  · cases hsel : selectByEmail db e with
    | nil => simp [login, authFails, hsel]
    | cons r rest =>
      cases hc : bcryptCompare p r.password <;>
        simp [login, authFails, hsel, hc]

/-- Witness for C5 amended: a wrong password for Alice gets the opaque
401 body. -/
theorem login_failure_taxonomy_witness :
    (login demoDb "a@x.com" "wrong" (some "s3cret") 7 true).body
      = JsonBody.error "Invalid credentials" :=
  (login_failure_taxonomy demoDb "a@x.com" "wrong" "s3cret" 7).2.2.2 (by decide)

/-- Claim C6: every successful Login returns the serialization of the
token minted by jwt.sign for the supplied email with the server-held
secret; that token carries the email as its payload, is signed with the
secret, expires exactly 3600 seconds after issuance, verifies successfully
at issuance time, and fails verification as expired at any time more than
one hour after issuance. -/
theorem login_token_contract (db : UsersTable) (e p s : String) (now t : Nat)
    (hsucc : (login db e p (some s) now true).status = 200) :
    (login db e p (some s) now true).body
      = JsonBody.token (serializeToken (jwtSign e s now)) ∧
    (jwtSign e s now).email = e ∧
    (jwtSign e s now).signedWith = s ∧
    (jwtSign e s now).exp = now + 3600 ∧
    jwtVerify (jwtSign e s now) s now = VerifyResult.ok e ∧
    (now + 3600 < t → jwtVerify (jwtSign e s now) s t = VerifyResult.expired) := by
  refine ⟨?_, rfl, rfl, rfl, ?_, ?_⟩
  · cases hsel : selectByEmail db e with
    | nil => simp [login, hsel] at hsucc
    | cons r rest =>
      cases hc : bcryptCompare p r.password with
      | false => simp [login, hsel, hc] at hsucc
      | true => simp [login, hsel, hc]
  · have hlt : ¬ (now + 3600 ≤ now) := by omega
    simp [jwtVerify, jwtSign, hlt]
  · intro ht
    have hle : now + 3600 ≤ t := by omega
    simp [jwtVerify, jwtSign, hle]

/-- Witness for C6: Alice logs in at time 7; the token verifies at 7 and
is expired at 3608. -/
theorem login_token_contract_witness :
    (login demoDb "a@x.com" "secret123" (some "s3cret") 7 true).body
      = JsonBody.token (serializeToken (jwtSign "a@x.com" "s3cret" 7)) ∧
    jwtVerify (jwtSign "a@x.com" "s3cret" 7) "s3cret" 7
      = VerifyResult.ok "a@x.com" ∧
    jwtVerify (jwtSign "a@x.com" "s3cret" 7) "s3cret" 3608
      = VerifyResult.expired := by
  have h := login_token_contract demoDb "a@x.com" "secret123" "s3cret" 7 3608
    (by decide)
  exact ⟨h.1, h.2.2.2.2.1, h.2.2.2.2.2 (by decide)⟩

/-- Claim C10: when several stored rows match the supplied email, Login
verifies the password only against the first row the lookup returns: even
when the password matches some later duplicate row, the response is the
401 authentication failure. -/
theorem login_checks_only_first_row (db : UsersTable) (e p : String)
    (secret : Option String) (now : Nat) (r0 : UserRow) (rest : List UserRow)
    (hlookup : selectByEmail db e = r0 :: rest)
    (hfirst : bcryptCompare p r0.password = false)
    (hother : ∃ r ∈ rest, bcryptCompare p r.password = true) :
    login db e p secret now true
      = { status := 401, body := JsonBody.error "Invalid credentials" } := by
  simp [login, hlookup, hfirst]

/-- Witness for C10: in the duplicate-email store, the password of the
second duplicate row is rejected because only the first row is checked. -/
theorem login_checks_only_first_row_witness :
    login demoDb2 "a@x.com" "pw2" (some "s3cret") 7 true
      = { status := 401, body := JsonBody.error "Invalid credentials" } :=
  login_checks_only_first_row demoDb2 "a@x.com" "pw2" (some "s3cret") 7
    { name := "Alice", email := "a@x.com", password := bcryptHash "pw1" 10 0 }
    [{ name := "Alicia", email := "a@x.com", password := bcryptHash "pw2" 10 1 }]
    (by decide) (by decide) (by decide)

end BloodGroup
